import Mathlib

/-!
Verification of the column-classification, column-grouping, filtering and
loading logic of `captest/capdata.py` (pvcaptest).

The Python code is shallowly embedded:

* pandas Series (one data column) become `SCol`: a column name together with
  its values; a pandas column is homogeneous, either numeric (modelled by
  `Rat`) or strings, hence `ColVals`.
* `Series.min()` / `Series.max()` return NaN on an empty column, modelled by
  `SVal.nan`.
* Python 3 comparison between a number and a string raises `TypeError`;
  partial operations therefore return `Except PyErr`.
* dictionaries become association lists, `list.sort()` becomes `mergeSort`.
-/

namespace Captest

/-- Python exception values that the embedded code can raise. -/
inductive PyErr where
  | typeError : PyErr
  | indexError : PyErr
  | keyError : PyErr
  | attributeError : PyErr
  | unboundLocal : String → PyErr
  | raised : String → PyErr
  | valueError : PyErr
deriving DecidableEq, Repr

/-- Python string comparison `a <= b`: lexicographic by code point.
(Defined directly on character lists so that it evaluates by `decide`.) -/
def strListLe : List Char → List Char → Bool
  | [], _ => true
  | _ :: _, [] => false
  | a :: asl, b :: bs =>
    if a.toNat < b.toNat then true
    else if b.toNat < a.toNat then false
    else strListLe asl bs

/-- Python `a <= b` on strings. -/
def pyStrLe (a b : String) : Bool := strListLe a.data b.data

/-- Python `min` of two strings. -/
def pyMinStr (a b : String) : String := if pyStrLe a b then a else b

/-- Python `max` of two strings. -/
def pyMaxStr (a b : String) : String := if pyStrLe b a then a else b

/-- Function `leadsList n h` is true when `n` occurs at the very start of `h`
(models Python `str.find` returning 0 at this position). -/
def leadsList : List Char → List Char → Bool
  | [], _ => true
  | _ :: _, [] => false
  | a :: asl, b :: bs => a == b && leadsList asl bs

/-- Function `containsSub needle hay`: does `needle` occur inside `hay`?
Models Python `hay.find(needle) != -1`. -/
def containsSub (needle : List Char) : List Char → Bool
  | [] => needle.isEmpty
  | c :: t => leadsList needle (c :: t) || containsSub needle t

/-- Lower-case a character list; models Python `str.lower()` (ASCII). -/
def lowerChars (s : List Char) : List Char := s.map Char.toLower

/-- Models `series.name.lower().find(search_str.lower()) != -1`
from `CapData.__series_type`. -/
def nameMatch (colName search : String) : Bool :=
  containsSub (lowerChars search.data) (lowerChars colName.data)

/-- A bound appearing in a type-definition table: the numeric categories carry
numeric bounds, the `index` category carries the string bounds `('', 'z')`. -/
inductive Bnd where
  | num : Rat → Bnd
  | str : String → Bnd
deriving DecidableEq, Repr

/-- The values of one pandas column: numeric (floats modelled by `Rat`)
or strings (the synthetic `index` column holds formatted timestamps). -/
inductive ColVals where
  | nums : List Rat → ColVals
  | strs : List String → ColVals
deriving DecidableEq, Repr

/-- One data column (a pandas Series handed to `__series_type` by
`DataFrame.apply`). -/
structure SCol where
  name : String
  vals : ColVals
deriving DecidableEq, Repr

/-- A scalar produced by `Series.min()`/`Series.max()`: a number, a string, or
NaN for an empty column. -/
inductive SVal where
  | num : Rat → SVal
  | str : String → SVal
  | nan : SVal
deriving DecidableEq, Repr

/-- Minimum of a list of rationals, `none` for the empty list (pandas NaN). -/
def minRat : List Rat → Option Rat
  | [] => none
  | x :: xs => some (match minRat xs with | none => x | some m => min x m)

/-- Maximum of a list of rationals, `none` for the empty list. -/
def maxRat : List Rat → Option Rat
  | [] => none
  | x :: xs => some (match maxRat xs with | none => x | some m => max x m)

/-- Minimum of a list of strings (lexicographic, as in Python). -/
def minStr : List String → Option String
  | [] => none
  | x :: xs => some (match minStr xs with | none => x | some m => pyMinStr x m)

/-- Maximum of a list of strings. -/
def maxStr : List String → Option String
  | [] => none
  | x :: xs => some (match maxStr xs with | none => x | some m => pyMaxStr x m)

/-- Models `series.min()` of `CapData.__series_type`. -/
def colMin (c : SCol) : SVal :=
  match c.vals with
  | .nums l => (minRat l).elim SVal.nan SVal.num
  | .strs l => (minStr l).elim SVal.nan SVal.str

/-- Models `series.max()` of `CapData.__series_type`. -/
def colMax (c : SCol) : SVal :=
  match c.vals with
  | .nums l => (maxRat l).elim SVal.nan SVal.num
  | .strs l => (maxStr l).elim SVal.nan SVal.str

/-- Python 3 `ser_min >= type_min`: comparing a number (or NaN) with a string
raises `TypeError`; `NaN >= x` is `False` for numeric `x`. -/
def pyGe : SVal → Bnd → Except PyErr Bool
  | .num x, .num b => .ok (decide (b ≤ x))
  | .str s, .str b => .ok (pyStrLe b s)
  | .nan, .num _ => .ok false
  | _, _ => .error .typeError

/-- Python 3 `ser_max <= type_max`. -/
def pyLe : SVal → Bnd → Except PyErr Bool
  | .num x, .num b => .ok (decide (x ≤ b))
  | .str s, .str b => .ok (pyStrLe s b)
  | .nan, .num _ => .ok false
  | _, _ => .error .typeError

/-- One entry of a type-definition table
(`type_defs`, `sub_type_defs`, `irr_sensors_defs`):
category key, search strings, and optional `(min, max)` bounds.
`sub_type_defs` and `irr_sensors_defs` entries carry no bounds
(`type_defs[key][1]` would be an `IndexError` there). -/
structure TypeDef where
  key : String
  searchStrs : List String
  bounds : Option (Bnd × Bnd)
deriving DecidableEq, Repr

/-- A warning printed by `__series_type` when a column's min/max fall outside
the category bounds; it records the offending value, the column name, the
violated bound and the category key (the four `format` arguments). -/
inductive BoundWarning where
  | below : SVal → String → Bnd → String → BoundWarning
  | above : SVal → String → Bnd → String → BoundWarning
deriving DecidableEq, Repr

/-- Models `CapData.__series_type`: walk the table in order; the first category one of
whose search strings occurs (case-insensitively) in the column name is
returned; with `boundsCheck` the column min/max are compared against the
category bounds (the category is returned whether or not they are in range,
the comparison only selects warnings — so the result does not depend on which
search string matched, and the inner `for search_str` loop is modelled by
`List.any`).  A column matching no category yields `""`. -/
def series_type (c : SCol) (defs : List TypeDef)
    (boundsCheck warnOn : Bool) : Except PyErr (String × List BoundWarning) :=
  match defs with
  | [] => .ok ("", [])
  | d :: rest =>
    if d.searchStrs.any (fun s => nameMatch c.name s) then
      if boundsCheck then
        match d.bounds with
        | some (tmin, tmax) => do
            let minOk ← pyGe (colMin c) tmin
            let maxOk ← pyLe (colMax c) tmax
            if minOk && maxOk then
              Except.ok (d.key, [])
            else
              Except.ok (d.key,
                if warnOn then
                  (if minOk then [] else
                    [BoundWarning.below (colMin c) c.name tmin d.key]) ++
                  (if maxOk then [] else
                    [BoundWarning.above (colMax c) c.name tmax d.key])
                else [])
        | none => .error .indexError
      else Except.ok (d.key, [])
    else series_type c rest boundsCheck warnOn

/-- The `type_defs` ordered lookup table of `capdata.py`. -/
def type_defs : List TypeDef := [
  ⟨"irr", ["irradiance", "irr", "plane of array", "poa", "ghi",
           "global", "glob", "w/m^2", "w/m2", "w/m", "w/"],
   some (.num (-10), .num 1500)⟩,
  ⟨"temp", ["temperature", "temp", "degrees", "deg", "ambient",
            "amb", "cell temperature", "TArray"],
   some (.num (-49), .num 127)⟩,
  ⟨"wind", ["wind", "speed"], some (.num 0, .num 18)⟩,
  ⟨"pf", ["power factor", "factor", "pf"], some (.num (-1), .num 1)⟩,
  ⟨"op_state", ["operating state", "state", "op", "status"],
   some (.num 0, .num 10)⟩,
  ⟨"real_pwr", ["real power", "ac power", "e_grid"],
   some (.num (-1000000), .num 1000000000000)⟩,
  ⟨"shade", ["fshdbm", "shd", "shade"], some (.num 0, .num 1)⟩,
  ⟨"pvsyt_losses", ["IL Pmax", "IL Pmin", "IL Vmax", "IL Vmin"],
   some (.num (-1000000000), .num 100000000)⟩,
  ⟨"index", ["index"], some (.str "", .str "z")⟩]

/-- The `sub_type_defs` table (no bounds). -/
def sub_type_defs : List TypeDef := [
  ⟨"ghi", ["sun2", "global horizontal", "ghi", "global", "GlobHor"], none⟩,
  ⟨"poa", ["sun", "plane of array", "poa", "GlobInc"], none⟩,
  ⟨"amb", ["TempF", "ambient", "amb"], none⟩,
  ⟨"mod", ["Temp1", "module", "mod", "TArray"], none⟩,
  ⟨"mtr", ["revenue meter", "rev meter", "billing meter", "meter"], none⟩,
  ⟨"inv", ["inverter", "inv"], none⟩]

/-- The `irr_sensors_defs` table (no bounds). -/
def irr_sensors_defs : List TypeDef := [
  ⟨"ref_cell", ["reference cell", "reference", "ref", "referance", "pvel"], none⟩,
  ⟨"pyran", ["pyranometer", "pyran"], none⟩,
  ⟨"clear_sky", ["csky"], none⟩]

/-- Column `c` matches category `d`: some search string of `d` occurs in the name. -/
def MatchesDef (c : SCol) (d : TypeDef) : Prop :=
  ∃ s ∈ d.searchStrs, nameMatch c.name s = true

instance (c : SCol) (d : TypeDef) : Decidable (MatchesDef c d) := by
  unfold MatchesDef; infer_instance


theorem matchesDef_iff_any (c : SCol) (d : TypeDef) :
    MatchesDef c d ↔ (d.searchStrs.any fun s => nameMatch c.name s) = true := by
  simp [MatchesDef, List.any_eq_true]

theorem series_type_skip (c : SCol) (d : TypeDef) (rest : List TypeDef)
    (bc w : Bool) (h : ¬ MatchesDef c d) :
    series_type c (d :: rest) bc w = series_type c rest bc w := by
  have hany : (d.searchStrs.any fun s => nameMatch c.name s) = false := by
    rw [← Bool.not_eq_true, ← matchesDef_iff_any]; exact h
  simp [series_type, hany]

theorem series_type_hit (c : SCol) (d : TypeDef) (rest : List TypeDef) (w : Bool)
    (hm : MatchesDef c d) (lo hi : Bnd) (hb : d.bounds = some (lo, hi))
    (b1 b2 : Bool) (h1 : pyGe (colMin c) lo = Except.ok b1)
    (h2 : pyLe (colMax c) hi = Except.ok b2) :
    series_type c (d :: rest) true w =
      Except.ok (d.key,
        if b1 && b2 then []
        else if w then
          (if b1 then [] else [BoundWarning.below (colMin c) c.name lo d.key]) ++
          (if b2 then [] else [BoundWarning.above (colMax c) c.name hi d.key])
        else []) := by
  have hany : (d.searchStrs.any fun s => nameMatch c.name s) = true :=
    (matchesDef_iff_any c d).mp hm
  unfold series_type
  rw [if_pos hany, hb]
  simp only [h1, h2]
  cases b1 <;> cases b2 <;> simp [Bind.bind, Except.bind]

/-- The first category in `defs` whose search strings match determines the
result of `series_type`; under a unique-match hypothesis that category is
returned, with the warnings determined by the two bound comparisons. -/
theorem series_type_first_match (c : SCol) (d : TypeDef) (w : Bool)
    (defs : List TypeDef) (hmem : d ∈ defs)
    (hdist : (defs.map TypeDef.key).Nodup)
    (honly : ∀ d' ∈ defs, d'.key ≠ d.key → ¬ MatchesDef c d')
    (hm : MatchesDef c d) (lo hi : Bnd) (hb : d.bounds = some (lo, hi))
    (b1 b2 : Bool) (h1 : pyGe (colMin c) lo = Except.ok b1)
    (h2 : pyLe (colMax c) hi = Except.ok b2) :
    series_type c defs true w =
      Except.ok (d.key,
        if b1 && b2 then []
        else if w then
          (if b1 then [] else [BoundWarning.below (colMin c) c.name lo d.key]) ++
          (if b2 then [] else [BoundWarning.above (colMax c) c.name hi d.key])
        else []) := by
  induction defs with
  | nil => cases hmem
  | cons e rest ih =>
    rcases List.mem_cons.mp hmem with he | hrest
    · exact he ▸ series_type_hit c d rest w hm lo hi hb b1 b2 h1 h2
    · have hne : e.key ≠ d.key := by
        intro hk
        have : d.key ∈ rest.map TypeDef.key := List.mem_map_of_mem _ hrest
        rw [List.map_cons, List.nodup_cons] at hdist
        exact hdist.1 (hk ▸ this)
      have hskip : ¬ MatchesDef c e := honly e (List.mem_cons_self e rest) hne
      rw [series_type_skip c e rest true w hskip]
      exact ih hrest (by rw [List.map_cons, List.nodup_cons] at hdist; exact hdist.2)
        (fun d' hd' => honly d' (List.mem_cons_of_mem e hd'))


/-- Claim C3, amended: a data column whose name contains (case-insensitively)
a search substring of category `d` of `type_defs` and no search substring of
any other category is assigned category `d.key`, regardless of the letter
case of the occurrence — provided the bound comparisons for `d` succeed
(which they do whenever the column's values and `d`'s bounds are of the same
kind).  For a numeric column matching only the string-bounded `index`
category the comparison instead raises `TypeError` (see the
counterexample). -/
theorem unique_match_assigns_category (c : SCol) (d : TypeDef) (w : Bool)
    (hmem : d ∈ type_defs)
    (hm : MatchesDef c d)
    (honly : ∀ d' ∈ type_defs, d'.key ≠ d.key → ¬ MatchesDef c d')
    (lo hi : Bnd) (hb : d.bounds = some (lo, hi))
    (b1 b2 : Bool) (h1 : pyGe (colMin c) lo = Except.ok b1)
    (h2 : pyLe (colMax c) hi = Except.ok b2) :
    ∃ ws, series_type c type_defs true w = Except.ok (d.key, ws) :=
  ⟨_, series_type_first_match c d w type_defs hmem (by decide) honly hm
        lo hi hb b1 b2 h1 h2⟩

/-- Claim C3, counterexample: the numeric column named `"index"` contains
(case-insensitively) exactly one search substring of the `type_defs` table —
`"index"`, belonging to the `index` category — and no substring of any other
category, yet the classifier does not assign the category: comparing the
numeric column minimum with the category's string bound `''` raises
`TypeError` in Python 3. -/
theorem index_named_numeric_column_raises :
    decide (MatchesDef ⟨"index", .nums [500]⟩
      ⟨"index", ["index"], some (.str "", .str "z")⟩) = true
    ∧ (type_defs.all fun d' =>
        decide (d'.key = "index") || ! decide (MatchesDef ⟨"index", .nums [500]⟩ d')) = true
    ∧ series_type ⟨"index", .nums [500]⟩ type_defs true false
        = Except.error PyErr.typeError :=
  ⟨by decide, by decide, rfl⟩

/-- Witness for `unique_match_assigns_category`: the column `"WIND Speed"`
(mixed case) matches only the `wind` category and is classified `wind`. -/
theorem unique_match_assigns_category_witness :
    ∃ ws, series_type ⟨"WIND Speed", .nums [5]⟩ type_defs true false
      = Except.ok ("wind", ws) :=
  unique_match_assigns_category ⟨"WIND Speed", .nums [5]⟩
    ⟨"wind", ["wind", "speed"], some (.num 0, .num 18)⟩ false (by decide)
    (by decide) (by decide) (.num 0) (.num 18) rfl true true rfl rfl

/-- Claim C5: a column whose name matches a category (first match, unique
here) but whose observed minimum or maximum violates the category's bounds is
still assigned that category — classification never fails — and with
warnings enabled a warning carrying the offending value is emitted (one per
violated bound), while with warnings disabled no warning is emitted. -/
theorem out_of_bounds_still_classified (c : SCol) (d : TypeDef)
    (hmem : d ∈ type_defs)
    (hm : MatchesDef c d)
    (honly : ∀ d' ∈ type_defs, d'.key ≠ d.key → ¬ MatchesDef c d')
    (lo hi : Bnd) (hb : d.bounds = some (lo, hi))
    (b1 b2 : Bool) (h1 : pyGe (colMin c) lo = Except.ok b1)
    (h2 : pyLe (colMax c) hi = Except.ok b2)
    (hout : b1 = false ∨ b2 = false) :
    series_type c type_defs true true =
      Except.ok (d.key,
        (if b1 then [] else [BoundWarning.below (colMin c) c.name lo d.key]) ++
        (if b2 then [] else [BoundWarning.above (colMax c) c.name hi d.key]))
    ∧ ((if b1 then ([] : List BoundWarning)
        else [BoundWarning.below (colMin c) c.name lo d.key]) ++
       (if b2 then [] else [BoundWarning.above (colMax c) c.name hi d.key])) ≠ []
    ∧ (b1 = false → BoundWarning.below (colMin c) c.name lo d.key ∈
        (if b1 then ([] : List BoundWarning)
         else [BoundWarning.below (colMin c) c.name lo d.key]) ++
        (if b2 then [] else [BoundWarning.above (colMax c) c.name hi d.key]))
    ∧ (b2 = false → BoundWarning.above (colMax c) c.name hi d.key ∈
        (if b1 then ([] : List BoundWarning)
         else [BoundWarning.below (colMin c) c.name lo d.key]) ++
        (if b2 then [] else [BoundWarning.above (colMax c) c.name hi d.key]))
    ∧ series_type c type_defs true false = Except.ok (d.key, []) := by
  have hb12 : (b1 && b2) = false := by
    rcases hout with h | h <;> simp [h]
  have hft := series_type_first_match c d true type_defs hmem (by decide) honly hm
    lo hi hb b1 b2 h1 h2
  have hff := series_type_first_match c d false type_defs hmem (by decide) honly hm
    lo hi hb b1 b2 h1 h2
  rw [hb12] at hft hff
  refine ⟨by simpa using hft, ?_, ?_, ?_, by simpa using hff⟩
  · rcases hout with h | h <;> subst h <;> simp
  · intro h; subst h; simp
  · intro h; subst h; simp


theorem strListLe_refl : ∀ a : List Char, strListLe a a = true
  | [] => rfl
  | a :: as' => by simp [strListLe, strListLe_refl as']

theorem strListLe_total : ∀ a b : List Char, strListLe a b = true ∨ strListLe b a = true
  | [], _ => Or.inl rfl
  | _ :: _, [] => Or.inr rfl
  | a :: as', b :: bs => by
    rcases Nat.lt_trichotomy a.toNat b.toNat with h | h | h
    · left; simp [strListLe, h]
    · have h2 : ¬ a.toNat < b.toNat := by omega
      have h3 : ¬ b.toNat < a.toNat := by omega
      rcases strListLe_total as' bs with ih | ih
      · left; simp [strListLe, h2, h3, ih]
      · right; simp [strListLe, h2, h3, ih]
    · right; simp [strListLe, h]

theorem strListLe_trans :
    ∀ a b c : List Char, strListLe a b = true → strListLe b c = true →
      strListLe a c = true
  | [], _, _ => by intros; rfl
  | _ :: _, [], _ => by intro h _; cases h
  | _ :: _, _ :: _, [] => by intro _ h; cases h
  | a :: as', b :: bs, c :: cs => by
    intro h1 h2
    rcases Nat.lt_trichotomy a.toNat b.toNat with hab | hab | hab
    · rcases Nat.lt_trichotomy b.toNat c.toNat with hbc | hbc | hbc
      · simp [strListLe, show a.toNat < c.toNat by omega]
      · simp [strListLe, show a.toNat < c.toNat by omega]
      · simp [strListLe, show ¬ b.toNat < c.toNat by omega, hbc] at h2
    · rcases Nat.lt_trichotomy b.toNat c.toNat with hbc | hbc | hbc
      · simp [strListLe, show a.toNat < c.toNat by omega]
      · have e1 : ¬ a.toNat < b.toNat := by omega
        have e2 : ¬ b.toNat < a.toNat := by omega
        have e3 : ¬ b.toNat < c.toNat := by omega
        have e4 : ¬ c.toNat < b.toNat := by omega
        simp [strListLe, e1, e2] at h1
        simp [strListLe, e3, e4] at h2
        simp [strListLe, show ¬ a.toNat < c.toNat by omega,
          show ¬ c.toNat < a.toNat by omega]
        exact strListLe_trans as' bs cs h1 h2
      · simp [strListLe, show ¬ b.toNat < c.toNat by omega, hbc] at h2
    · simp [strListLe, show ¬ a.toNat < b.toNat by omega, hab] at h1

theorem charToNat_inj {a b : Char} (h : a.toNat = b.toNat) : a = b := by
  apply Char.eq_of_val_eq
  exact UInt32.toNat.inj h

theorem strListLe_antisymm :
    ∀ a b : List Char, strListLe a b = true → strListLe b a = true → a = b
  | [], [] => by intros; rfl
  | [], _ :: _ => by intro _ h; cases h
  | _ :: _, [] => by intro h _; cases h
  | a :: as', b :: bs => by
    intro h1 h2
    rcases Nat.lt_trichotomy a.toNat b.toNat with hab | hab | hab
    · simp [strListLe, show ¬ b.toNat < a.toNat by omega, hab] at h2
    · have e1 : ¬ a.toNat < b.toNat := by omega
      have e2 : ¬ b.toNat < a.toNat := by omega
      simp [strListLe, e1, e2] at h1 h2
      rw [charToNat_inj hab, strListLe_antisymm as' bs h1 h2]
    · simp [strListLe, show ¬ a.toNat < b.toNat by omega, hab] at h1

theorem pyStrLe_refl (a : String) : pyStrLe a a = true := strListLe_refl a.data

theorem pyStrLe_total (a b : String) : pyStrLe a b = true ∨ pyStrLe b a = true :=
  strListLe_total a.data b.data

theorem pyStrLe_trans {a b c : String} (h1 : pyStrLe a b = true)
    (h2 : pyStrLe b c = true) : pyStrLe a c = true :=
  strListLe_trans a.data b.data c.data h1 h2

theorem pyStrLe_antisymm {a b : String} (h1 : pyStrLe a b = true)
    (h2 : pyStrLe b a = true) : a = b := by
  have h := strListLe_antisymm a.data b.data h1 h2
  cases a; cases b; exact congrArg String.mk h

/-- Python tuple comparison `(a, b) <= (c, d)` for pairs of strings, as used
by `names.sort()` in `CapData.__set_trans`. -/
def pairLe (p q : String × String) : Bool :=
  if pyStrLe p.1 q.1 then
    if pyStrLe q.1 p.1 then pyStrLe p.2 q.2 else true
  else false

theorem pairLe_fst {p q : String × String} (h : pairLe p q = true) :
    pyStrLe p.1 q.1 = true := by
  unfold pairLe at h
  by_cases h1 : pyStrLe p.1 q.1 = true
  · exact h1
  · simp [h1] at h

theorem pairLe_total (p q : String × String) :
    pairLe p q = true ∨ pairLe q p = true := by
  unfold pairLe
  cases hpq : pyStrLe p.1 q.1 <;> cases hqp : pyStrLe q.1 p.1 <;>
    simp [hpq, hqp]
  · rcases pyStrLe_total p.1 q.1 with h | h
    · rw [h] at hpq; cases hpq
    · rw [h] at hqp; cases hqp
  · exact pyStrLe_total p.2 q.2

theorem pairLe_trans {p q r : String × String} (h1 : pairLe p q = true)
    (h2 : pairLe q r = true) : pairLe p r = true := by
  have f1 : pyStrLe p.1 q.1 = true := pairLe_fst h1
  have f2 : pyStrLe q.1 r.1 = true := pairLe_fst h2
  have f3 : pyStrLe p.1 r.1 = true := pyStrLe_trans f1 f2
  unfold pairLe
  rw [f3, if_pos rfl]
  cases hrp : pyStrLe r.1 p.1
  · simp
  · have hq_p : q.1 = p.1 := pyStrLe_antisymm (pyStrLe_trans f2 hrp) f1
    have hr_q : r.1 = q.1 := pyStrLe_antisymm (pyStrLe_trans hrp f1) f2
    have s1 : pyStrLe p.2 q.2 = true := by
      unfold pairLe at h1
      rw [f1, if_pos rfl, hq_p, pyStrLe_refl, if_pos rfl] at h1
      exact h1
    have s2 : pyStrLe q.2 r.2 = true := by
      unfold pairLe at h2
      rw [f2, if_pos rfl, hr_q, pyStrLe_refl, if_pos rfl] at h2
      exact h2
    simp [pyStrLe_trans s1 s2]

theorem pairLe_antisymm {p q : String × String} (h1 : pairLe p q = true)
    (h2 : pairLe q p = true) : p = q := by
  have f1 : pyStrLe p.1 q.1 = true := pairLe_fst h1
  have f2 : pyStrLe q.1 p.1 = true := pairLe_fst h2
  have hfst : p.1 = q.1 := pyStrLe_antisymm f1 f2
  have s1 : pyStrLe p.2 q.2 = true := by
    unfold pairLe at h1
    rw [f1, if_pos rfl, f2, if_pos rfl] at h1
    exact h1
  have s2 : pyStrLe q.2 p.2 = true := by
    unfold pairLe at h2
    rw [f2, if_pos rfl, f1, if_pos rfl] at h2
    exact h2
  have hsnd : p.2 = q.2 := pyStrLe_antisymm s1 s2
  exact Prod.ext hfst hsnd

/-- Insert into a sorted list; auxiliary for `pySort`. -/
def insertSorted (le : α → α → Bool) (a : α) : List α → List α
  | [] => [a]
  | b :: t => if le a b then a :: b :: t else b :: insertSorted le a t

/-- Model of Python `list.sort()` (insertion sort; the result is the sorted
permutation, which for a total order is unique up to equal elements). -/
def pySort (le : α → α → Bool) : List α → List α
  | [] => []
  | a :: t => insertSorted le a (pySort le t)

theorem insertSorted_perm (le : α → α → Bool) (a : α) :
    ∀ l : List α, List.Perm (insertSorted le a l) (a :: l)
  | [] => List.Perm.refl _
  | b :: t => by
    unfold insertSorted
    by_cases h : le a b = true
    · rw [if_pos h]
    · rw [if_neg h]
      exact ((insertSorted_perm le a t).cons b).trans (List.Perm.swap a b t)

theorem pySort_perm (le : α → α → Bool) : ∀ l : List α, List.Perm (pySort le l) l
  | [] => List.Perm.refl _
  | a :: t => (insertSorted_perm le a (pySort le t)).trans ((pySort_perm le t).cons a)

theorem mem_insertSorted {le : α → α → Bool} {a x : α} {l : List α} :
    x ∈ insertSorted le a l ↔ x = a ∨ x ∈ l := by
  rw [(insertSorted_perm le a l).mem_iff, List.mem_cons]

theorem insertSorted_sorted (le : α → α → Bool)
    (htr : ∀ x y z, le x y = true → le y z = true → le x z = true)
    (htot : ∀ x y, le x y = true ∨ le y x = true) (a : α) :
    ∀ l : List α, l.Pairwise (fun x y => le x y = true) →
      (insertSorted le a l).Pairwise (fun x y => le x y = true)
  | [], _ => List.pairwise_singleton _ _
  | b :: t, hp => by
    rw [List.pairwise_cons] at hp
    unfold insertSorted
    by_cases h : le a b = true
    · rw [if_pos h]
      refine List.Pairwise.cons ?_ (List.Pairwise.cons hp.1 hp.2)
      intro x hx
      rcases List.mem_cons.mp hx with rfl | hx
      · exact h
      · exact htr a b x h (hp.1 x hx)
    · rw [if_neg h]
      have hba : le b a = true := by
        rcases htot a b with h' | h'
        · exact absurd h' h
        · exact h'
      refine List.Pairwise.cons ?_ (insertSorted_sorted le htr htot a t hp.2)
      intro x hx
      rcases mem_insertSorted.mp hx with rfl | hx
      · exact hba
      · exact hp.1 x hx

theorem pySort_sorted (le : α → α → Bool)
    (htr : ∀ x y z, le x y = true → le y z = true → le x z = true)
    (htot : ∀ x y, le x y = true ∨ le y x = true) :
    ∀ l : List α, (pySort le l).Pairwise (fun x y => le x y = true)
  | [] => List.Pairwise.nil
  | a :: t => insertSorted_sorted le htr htot a (pySort le t)
      (pySort_sorted le htr htot t)


/-- The grouping step of `CapData.__set_trans`, operating on the zipped list
`names = zip(col_indices, df.columns)` of `(group key, original column name)`
pairs: sort the pairs, sort the keys, and for each distinct key slice the
sorted original names from the key's first index in the sorted key list,
taking as many names as the key occurs
(`orig_names_sorted[start:start + count]`). -/
def set_trans_pairs (pairs : List (String × String)) :
    List (String × List String) :=
  let names := pySort pairLe pairs
  let orig_names_sorted := names.map Prod.snd
  let col_indices := pySort pyStrLe (pairs.map Prod.fst)
  let cols := pySort pyStrLe (pairs.map Prod.fst).dedup
  cols.map fun name =>
    (name,
      (orig_names_sorted.drop (col_indices.indexOf name)).take
        (col_indices.count name))

/-- The `'-'.join([typ, sub_typ, irr_typ])` key of one column in
`CapData.__set_trans`: type pass with bounds check (warnings per
`trans_report`), sub-type and equipment passes without bounds check. -/
def col_group_key (c : SCol) (warnOn : Bool) : Except PyErr String := do
  let t ← series_type c type_defs true warnOn
  let st ← series_type c sub_type_defs false false
  let it ← series_type c irr_sensors_defs false false
  Except.ok (t.1 ++ "-" ++ st.1 ++ "-" ++ it.1)

/-- Models `CapData.__set_trans`: classify every column of the dataframe and group
the original column names under their `type-subtype-equipment` keys. -/
def set_trans (df : List SCol) (warnOn : Bool) :
    Except PyErr (List (String × List String)) := do
  let keys ← df.mapM (fun c => col_group_key c warnOn)
  Except.ok (set_trans_pairs (keys.zip (df.map SCol.name)))

instance : IsAntisymm String (fun a b => pyStrLe a b = true) :=
  ⟨fun _ _ h1 h2 => pyStrLe_antisymm h1 h2⟩

theorem map_fst_pySort (pairs : List (String × String)) :
    (pySort pairLe pairs).map Prod.fst = pySort pyStrLe (pairs.map Prod.fst) := by
  apply List.eq_of_perm_of_sorted (r := fun a b => pyStrLe a b = true)
  · exact ((pySort_perm pairLe pairs).map Prod.fst).trans
      (pySort_perm pyStrLe _).symm
  · exact List.Pairwise.map Prod.fst (fun a b h => pairLe_fst h)
      (pySort_sorted pairLe (fun _ _ _ h1 h2 => pairLe_trans h1 h2)
        pairLe_total pairs)
  · exact pySort_sorted pyStrLe (fun _ _ _ h1 h2 => pyStrLe_trans h1 h2)
      pyStrLe_total _

theorem take_count_eq_filter (k : String) :
    ∀ l : List (String × String),
      l.Pairwise (fun p q => pairLe p q = true) →
      (∀ q ∈ l, pyStrLe k q.1 = true) →
      (l.map Prod.snd).take ((l.map Prod.fst).count k)
        = (l.filter (fun p => p.1 == k)).map Prod.snd
  | [], _, _ => by simp
  | q :: t, hp, hge => by
    have hp' := (List.pairwise_cons.mp hp)
    by_cases hk : q.1 = k
    · have hbeq : (q.1 == k) = true := beq_iff_eq.mpr hk
      have ht : ∀ r ∈ t, pyStrLe k r.1 = true := fun r hr =>
        hk ▸ pairLe_fst (hp'.1 r hr)
      have hfil : List.filter (fun p => p.1 == k) (q :: t)
          = q :: List.filter (fun p => p.1 == k) t := by
        simp [List.filter_cons, hbeq]
      rw [List.map_cons, List.map_cons, List.count_cons, if_pos hbeq,
        List.take_succ_cons, hfil, List.map_cons,
        take_count_eq_filter k t hp'.2 ht]
    · have hkq : pyStrLe k q.1 = true := hge q (List.mem_cons_self q t)
      have hnone : ∀ r ∈ q :: t, r.1 ≠ k := by
        intro r hr hEq
        rcases List.mem_cons.mp hr with rfl | hr
        · exact hk hEq
        · have h1 : pyStrLe q.1 r.1 = true := pairLe_fst (hp'.1 r hr)
          exact hk (pyStrLe_antisymm (hEq ▸ h1) hkq)
      have hcount : ((q :: t).map Prod.fst).count k = 0 := by
        rw [List.count_eq_zero]
        intro hmem
        rcases List.mem_map.mp hmem with ⟨r, hr, hEq⟩
        exact hnone r hr hEq
      have hfil : (q :: t).filter (fun p => p.1 == k) = [] := by
        rw [List.filter_eq_nil_iff]
        intro r hr
        simp only [beq_iff_eq]
        exact hnone r hr
      rw [hcount, hfil, List.take_zero]
      rfl

theorem drop_take_eq_filter (k : String) :
    ∀ l : List (String × String),
      l.Pairwise (fun p q => pairLe p q = true) →
      ((l.map Prod.snd).drop ((l.map Prod.fst).indexOf k)).take
          ((l.map Prod.fst).count k)
        = (l.filter (fun p => p.1 == k)).map Prod.snd
  | [], _ => by simp
  | p :: t, hp => by
    have hp' := (List.pairwise_cons.mp hp)
    by_cases hk : p.1 = k
    · have hidx : ((p :: t).map Prod.fst).indexOf k = 0 := by
        rw [List.map_cons]
        exact List.indexOf_cons_eq _ hk
      rw [hidx, List.drop_zero]
      have ht : ∀ r ∈ p :: t, pyStrLe k r.1 = true := by
        intro r hr
        rcases List.mem_cons.mp hr with rfl | hr
        · exact hk ▸ pyStrLe_refl r.1
        · exact hk ▸ pairLe_fst (hp'.1 r hr)
      exact take_count_eq_filter k (p :: t) hp ht
    · have hbeq : (p.1 == k) = false := by
        simp only [beq_eq_false_iff_ne, ne_eq]
        exact hk
      have hidx : ((p :: t).map Prod.fst).indexOf k
          = ((t.map Prod.fst).indexOf k) + 1 := by
        rw [List.map_cons]
        exact List.indexOf_cons_ne _ hk
      have hfil : List.filter (fun p => p.1 == k) (p :: t)
          = List.filter (fun p => p.1 == k) t := by
        simp [List.filter_cons, hbeq]
      rw [hidx, List.map_cons, List.map_cons, List.drop_succ_cons,
        List.count_cons, if_neg (by simp [hbeq]), Nat.add_zero, hfil]
      exact drop_take_eq_filter k t hp'.2

theorem set_trans_pairs_eq (pairs : List (String × String)) :
    set_trans_pairs pairs
      = (pySort pyStrLe (pairs.map Prod.fst).dedup).map
          (fun k =>
            (k, ((pySort pairLe pairs).filter (fun p => p.1 == k)).map
                  Prod.snd)) := by
  unfold set_trans_pairs
  apply List.map_congr_left
  intro k _
  rw [← map_fst_pySort pairs]
  exact congrArg (Prod.mk k)
    (drop_take_eq_filter k (pySort pairLe pairs)
      (pySort_sorted pairLe (fun _ _ _ h1 h2 => pairLe_trans h1 h2)
        pairLe_total pairs))

theorem join_filters_perm :
    ∀ (keys : List String) (l : List (String × String)),
      keys.Nodup → (∀ p ∈ l, p.1 ∈ keys) →
      List.Perm (keys.map (fun k => l.filter (fun p => p.1 == k))).flatten l
  | [], l, _, hcov => by
    cases l with
    | nil => simp
    | cons p t => exact absurd (hcov p (List.mem_cons_self p t)) (List.not_mem_nil _)
  | k :: ks, l, hnd, hcov => by
    rw [List.map_cons, List.flatten_cons]
    have hnd' := List.nodup_cons.mp hnd
    have hmap : ks.map (fun k' => l.filter (fun p => p.1 == k'))
        = ks.map (fun k' =>
            (l.filter (fun p => !(p.1 == k))).filter (fun p => p.1 == k')) := by
      apply List.map_congr_left
      intro k' hk'
      have hne : k' ≠ k := fun h => hnd'.1 (h ▸ hk')
      rw [List.filter_filter]
      apply List.filter_congr
      intro p _
      by_cases h : p.1 = k'
      · simp [h, hne]
      · simp [h]
    rw [hmap]
    have hcov' : ∀ p ∈ l.filter (fun p => !(p.1 == k)), p.1 ∈ ks := by
      intro p hp
      rcases List.mem_filter.mp hp with ⟨hpl, hpk⟩
      rcases List.mem_cons.mp (hcov p hpl) with h | h
      · exact absurd (beq_iff_eq.mpr h) (by simpa using hpk)
      · exact h
    exact (List.Perm.append_left _
        (join_filters_perm ks _ hnd'.2 hcov')).trans
      (List.filter_append_perm _ l)

theorem mapM_ok_forall₂ {f : SCol → Except PyErr String} :
    ∀ (df : List SCol) (keys : List String),
      df.mapM f = Except.ok keys →
      List.Forall₂ (fun c k => f c = Except.ok k) df keys := by
  intro df
  induction df with
  | nil =>
    intro keys h
    rw [List.mapM_nil] at h
    cases h
    exact List.Forall₂.nil
  | cons c t ih =>
    intro keys h
    rw [List.mapM_cons] at h
    cases hc : f c with
    | error e => rw [hc] at h; simp [Bind.bind, Except.bind] at h
    | ok k =>
      rw [hc] at h
      cases ht : t.mapM f with
      | error e =>
        rw [ht] at h
        simp [Bind.bind, Except.bind] at h
      | ok ks =>
        rw [ht] at h
        simp only [Bind.bind, Except.bind, pure, Except.pure] at h
        cases h
        exact List.Forall₂.cons hc (ih ks ht)


/-- Claim C4: the translation (column-group) mapping produced by
`CapData.__set_trans` partitions the raw columns: the group keys are pairwise
distinct, the concatenation of all group lists is a permutation of the raw
column-name list (every raw column appears in the list of exactly one key,
none under two keys), every column's name is listed under the key of its own
classification — including the catch-all `"--"` key produced when every
classification pass returns the empty label — and every listed name comes
from a column classified to that key. -/
theorem set_trans_partitions (df : List SCol) (w : Bool)
    (trans : List (String × List String))
    (h : set_trans df w = Except.ok trans) :
    (trans.map Prod.fst).Nodup
    ∧ List.Perm (trans.map Prod.snd).flatten (df.map SCol.name)
    ∧ (∀ c ∈ df, ∀ k, col_group_key c w = Except.ok k →
        ∃ lst, (k, lst) ∈ trans ∧ c.name ∈ lst)
    ∧ (∀ p ∈ trans, ∀ n ∈ p.2, ∃ c ∈ df,
        c.name = n ∧ col_group_key c w = Except.ok p.1) := by
  unfold set_trans at h
  cases hkeys : df.mapM (fun c => col_group_key c w) with
  | error e => rw [hkeys] at h; simp [Bind.bind, Except.bind] at h
  | ok keys =>
    rw [hkeys] at h
    simp only [Bind.bind, Except.bind, pure, Except.pure] at h
    cases h
    have hf := mapM_ok_forall₂ df keys hkeys
    have hlen : df.length = keys.length := List.Forall₂.length_eq hf
    have hnames_len : (df.map SCol.name).length = df.length := List.length_map _ _
    have hfst : (keys.zip (df.map SCol.name)).map Prod.fst = keys :=
      List.map_fst_zip _ _ (by rw [hnames_len, hlen])
    have hsnd : (keys.zip (df.map SCol.name)).map Prod.snd = df.map SCol.name :=
      List.map_snd_zip _ _ (by rw [hnames_len, hlen])
    rw [set_trans_pairs_eq]
    have hsortperm := pySort_perm pairLe (keys.zip (df.map SCol.name))
    have hcolsperm := pySort_perm pyStrLe
      (((keys.zip (df.map SCol.name)).map Prod.fst).dedup)
    have hcolsnd : (pySort pyStrLe
        (((keys.zip (df.map SCol.name)).map Prod.fst).dedup)).Nodup :=
      (hcolsperm.nodup_iff).mpr (List.nodup_dedup _)
    have hcov : ∀ p ∈ pySort pairLe (keys.zip (df.map SCol.name)),
        p.1 ∈ pySort pyStrLe
          (((keys.zip (df.map SCol.name)).map Prod.fst).dedup) := by
      intro p hp
      have hp2 : p ∈ keys.zip (df.map SCol.name) := hsortperm.mem_iff.mp hp
      have hm : p.1 ∈ (keys.zip (df.map SCol.name)).map Prod.fst :=
        List.mem_map_of_mem _ hp2
      exact hcolsperm.mem_iff.mpr (List.mem_dedup.mpr hm)
    refine ⟨?_, ?_, ?_, ?_⟩
    · -- distinct keys
      have : ((pySort pyStrLe
            (((keys.zip (df.map SCol.name)).map Prod.fst).dedup)).map
          (fun k =>
            (k, ((pySort pairLe (keys.zip (df.map SCol.name))).filter
                  (fun p => p.1 == k)).map Prod.snd))).map Prod.fst
          = pySort pyStrLe (((keys.zip (df.map SCol.name)).map Prod.fst).dedup) := by
        rw [List.map_map]
        exact List.map_id _
      rw [this]
      exact hcolsnd
    · -- the groups concatenate to a permutation of the column names
      have hjoin := join_filters_perm
        (pySort pyStrLe (((keys.zip (df.map SCol.name)).map Prod.fst).dedup))
        (pySort pairLe (keys.zip (df.map SCol.name))) hcolsnd hcov
      have hmm : ((pySort pyStrLe
            (((keys.zip (df.map SCol.name)).map Prod.fst).dedup)).map
          (fun k =>
            (k, ((pySort pairLe (keys.zip (df.map SCol.name))).filter
                  (fun p => p.1 == k)).map Prod.snd))).map Prod.snd
          = ((pySort pyStrLe
            (((keys.zip (df.map SCol.name)).map Prod.fst).dedup)).map
          (fun k => ((pySort pairLe (keys.zip (df.map SCol.name))).filter
                  (fun p => p.1 == k)))).map (List.map Prod.snd) := by
        rw [List.map_map, List.map_map]
        rfl
      rw [hmm, ← List.map_flatten]
      exact ((hjoin.map Prod.snd).trans (hsortperm.map Prod.snd)).trans
        (by rw [hsnd])
    · -- every column is listed under its classification key
      intro c hc k hk
      rcases List.mem_iff_getElem.mp hc with ⟨i, hi, hceq⟩
      rcases List.forall₂_iff_get.mp hf with ⟨_, hget⟩
      have hki := hget i hi (by omega)
      simp only [List.get_eq_getElem] at hki
      rw [hceq, hk] at hki
      have hkeq : keys[i] = k := by
        cases hki
        rfl
      have hzlen : i < (keys.zip (df.map SCol.name)).length := by
        rw [List.length_zip]
        omega
      have hpair : (keys.zip (df.map SCol.name))[i] = (k, c.name) := by
        rw [List.getElem_zip]
        rw [hkeq]
        congr 1
        rw [List.getElem_map]
        rw [hceq]
      have hpmem : (k, c.name) ∈ keys.zip (df.map SCol.name) := by
        rw [← hpair]
        exact List.getElem_mem hzlen
      have hpsort : (k, c.name) ∈ pySort pairLe (keys.zip (df.map SCol.name)) :=
        hsortperm.mem_iff.mpr hpmem
      have hkcols : k ∈ pySort pyStrLe
          (((keys.zip (df.map SCol.name)).map Prod.fst).dedup) :=
        hcov (k, c.name) hpsort
      refine ⟨((pySort pairLe (keys.zip (df.map SCol.name))).filter
        (fun p => p.1 == k)).map Prod.snd, ?_, ?_⟩
      · exact List.mem_map_of_mem _ hkcols
      · exact List.mem_map.mpr
          ⟨(k, c.name), List.mem_filter.mpr ⟨hpsort, by simp⟩, rfl⟩
    · -- every listed name comes from a column classified to that key
      intro p hp n hn
      rcases List.mem_map.mp hp with ⟨k, hkmem, hpk⟩
      subst hpk
      rcases List.mem_map.mp hn with ⟨q, hq, hqn⟩
      rcases List.mem_filter.mp hq with ⟨hqs, hqk⟩
      have hqk' : q.1 = k := by simpa using hqk
      have hqpairs : q ∈ keys.zip (df.map SCol.name) := hsortperm.mem_iff.mp hqs
      rcases List.mem_iff_getElem.mp hqpairs with ⟨j, hj, hjq⟩
      have hjk : j < keys.length := by
        rw [List.length_zip] at hj
        omega
      have hjd : j < df.length := by
        rw [List.length_zip, hnames_len] at hj
        omega
      have hjzip : (keys.zip (df.map SCol.name))[j] = (keys[j], (df[j]).name) := by
        rw [List.getElem_zip]
        congr 1
        rw [List.getElem_map]
      rcases List.forall₂_iff_get.mp hf with ⟨_, hget⟩
      have hkj := hget j hjd (by omega)
      simp only [List.get_eq_getElem] at hkj
      have hq2 : q = (keys[j], (df[j]).name) := by rw [← hjq, hjzip]
      refine ⟨df[j], List.getElem_mem hjd, ?_, ?_⟩
      · rw [← hqn, hq2]
      · show col_group_key df[j] w = Except.ok k
        rw [hkj]
        have hkjk : keys[j] = k := by rw [← hqk', hq2]
        rw [hkjk]


/-- One row of a dataframe: its timestamp-index label (abstracted to `Nat`)
and its cell values. -/
structure TRow where
  idx : Nat
  vals : List Rat
deriving DecidableEq, Repr

/-- A pandas DataFrame: column names and rows. -/
structure Table where
  cols : List String
  rows : List TRow
deriving DecidableEq, Repr

/-- The value of row `r` in the column named `c`. -/
def cellVal (cols : List String) (r : TRow) (c : String) : Rat :=
  r.vals.getD (cols.indexOf c) 0

/-- Models `flt_irr` of `capdata.py`: when `ref_val` is given, `low` and `high` are
scaled by it; the result keeps the rows whose irradiance value `v` satisfies
`low <= v <= high` (the pandas `query`), with all columns retained
(`df.loc[indx, :]`). -/
def flt_irr (df : Table) (irr_col : String) (low high : Rat)
    (ref_val : Option Rat) : Table :=
  let low' := match ref_val with | some r => low * r | none => low
  let high' := match ref_val with | some r => high * r | none => high
  { cols := df.cols,
    rows := df.rows.filter (fun r =>
      decide (low' ≤ cellVal df.cols r irr_col)
        && decide (cellVal df.cols r irr_col ≤ high')) }

/-- One audit-trail entry built by the `update_summary` decorator.  The first
field is stored under the source's `'pts_before_filter'` column label but
holds the row count remaining after the step (`pts_after`, or the unfiltered
count for the synthetic `'no filters'` entry). -/
structure SummaryEntry where
  pts : Nat
  pts_removed : Int
  filter_arguments : String
deriving DecidableEq, Repr

/-- The `CapData` object state: raw table `df`, working table `df_flt`
(`none` models Python `None` before any load), translation dictionary,
regression-variable dictionary and the audit trail. -/
@[ext]
structure CapData where
  name : String
  df : Table
  df_flt : Option Table
  trans : List (String × List String)
  reg_trans : List (String × String)
  summary_ix : List (String × String)
  summary : List SummaryEntry
deriving DecidableEq, Repr

/-- The state built by `CapData.__init__(name)`: empty dataframe, `df_flt`
is `None`, empty dictionaries and audit lists. -/
def capdata_init (name : String) : CapData :=
  { name := name, df := ⟨[], []⟩, df_flt := none, trans := [],
    reg_trans := [], summary_ix := [], summary := [] }

/-- Calling the class, `CapData(*args)`: `__init__(self, name)` has one
required positional parameter, so a call with no argument raises `TypeError`
(and so does a call with more than one). -/
def capdata_call (args : List String) : Except PyErr CapData :=
  match args with
  | [n] => .ok (capdata_init n)
  | _ => .error .typeError

/-- Models `CapData.copy`: first evaluates `CapData()` — with no argument — then
would copy `df`, `trans`, `reg_trans` (and the plot attributes, not
modelled) onto the fresh object. -/
def CapData.copy (cd : CapData) : Except PyErr CapData :=
  match capdata_call [] with
  | .error e => .error e
  | .ok cd_c =>
      .ok { cd_c with df := cd.df, trans := cd.trans, reg_trans := cd.reg_trans }

/-- Models `CapData.reset_flt`: working table becomes a fresh copy of the raw
table and the audit trail is cleared. -/
def reset_flt (cd : CapData) : CapData :=
  { cd with df_flt := some cd.df, summary_ix := [], summary := [] }

/-- The state at the end of `CapData.load_data`: the raw table is stored and
`df_flt` is set to a copy of it; the audit lists are still empty on the
freshly constructed object.  `trans`/`reg_trans` are whatever
`__set_trans`/`set_reg_trans` produced. -/
def load_state (name : String) (df : Table) (trans : List (String × List String))
    (reg_trans : List (String × String)) : CapData :=
  { name := name, df := df, df_flt := some df, trans := trans,
    reg_trans := reg_trans, summary_ix := [], summary := [] }

/-- Arguments of one `filter_irr` call. -/
structure IrrArgs where
  low : Rat
  high : Rat
  ref_val : Option Rat
  col_name : Option String
  inplace : Bool
deriving DecidableEq, Repr

/-- Deterministic rendering of a call's arguments, standing in for the
`args.__repr__()`/`kwargs.__repr__()` string built by `update_summary`
(only its functional dependence on the arguments matters to the claims). -/
def argString (a : IrrArgs) : String :=
  toString a.low.num ++ "/" ++ toString a.low.den ++ ", "
    ++ toString a.high.num ++ "/" ++ toString a.high.den
    ++ (match a.ref_val with
        | some r => ", ref_val=" ++ toString r.num ++ "/" ++ toString r.den
        | none => "")
    ++ (match a.col_name with
        | some c => ", col_name=" ++ c
        | none => "")
    ++ (if a.inplace then "" else ", inplace=False")

/-- The `update_summary` prologue: read the working row count; when it is 0,
substitute the raw table's count and append the synthetic
`(name, 'count')` / `'no filters'` entry.  Returns the updated state and
`pts_before`. -/
def update_summary_pre (cd : CapData) (wt : Table) : CapData × Nat :=
  if wt.rows.length = 0 then
    ({ cd with
        summary_ix := cd.summary_ix ++ [(cd.name, "count")],
        summary := cd.summary ++ [⟨cd.df.rows.length, 0, "no filters"⟩] },
     cd.df.rows.length)
  else (cd, wt.rows.length)

/-- The body of `CapData.filter_irr`: resolve the irradiance column (from
`col_name`, or through `reg_trans['poa']` and `trans[...]`, warning and
returning early when several columns qualify), filter, and write back to
`df_flt` when `inplace`. -/
def filter_irr_body (cd1 : CapData) (wt : Table) (a : IrrArgs) :
    Except PyErr CapData :=
  match a.col_name with
  | some c =>
      .ok (if a.inplace then
            { cd1 with df_flt := some (flt_irr wt c a.low a.high a.ref_val) }
          else cd1)
  | none =>
    match List.lookup "poa" cd1.reg_trans with
    | none => .error .keyError
    | some poaKey =>
      match List.lookup poaKey cd1.trans with
      | none => .error .keyError
      | some poaCols =>
        if poaCols.length > 1 then .ok cd1
        else match poaCols with
          | [c] => .ok (if a.inplace then
                { cd1 with df_flt := some (flt_irr wt c a.low a.high a.ref_val) }
              else cd1)
          | _ => .error .indexError

/-- The `update_summary` epilogue: append the filter's own audit entry with
the remaining count, `pts_before - pts_after` and the argument string. -/
def update_summary_post (cd2 : CapData) (ptsBefore : Nat) (a : IrrArgs) :
    CapData :=
  let ptsAfter := match cd2.df_flt with
    | some t => t.rows.length
    | none => 0
  { cd2 with
    summary_ix := cd2.summary_ix ++ [(cd2.name, "filter_irr")],
    summary := cd2.summary ++
      [⟨ptsAfter, (ptsBefore : Int) - (ptsAfter : Int), argString a⟩] }

/-- One call of the `update_summary`-wrapped `CapData.filter_irr`.  Before
any load `df_flt` is `None` and `self.df_flt.shape` raises
`AttributeError`. -/
def filter_irr_call (cd : CapData) (a : IrrArgs) : Except PyErr CapData :=
  match cd.df_flt with
  | none => .error .attributeError
  | some wt =>
    match filter_irr_body (update_summary_pre cd wt).1 wt a with
    | .error e => .error e
    | .ok cd2 => .ok (update_summary_post cd2 (update_summary_pre cd wt).2 a)

/-- A sequence of `filter_irr` calls, applied in order. -/
def run_filters (cd : CapData) : List IrrArgs → Except PyErr CapData
  | [] => .ok cd
  | a :: rest =>
    match filter_irr_call cd a with
    | .error e => .error e
    | .ok cd' => run_filters cd' rest


theorem update_summary_pre_fields (cd : CapData) (wt : Table) :
    (update_summary_pre cd wt).1.name = cd.name
    ∧ (update_summary_pre cd wt).1.df = cd.df
    ∧ (update_summary_pre cd wt).1.df_flt = cd.df_flt
    ∧ (update_summary_pre cd wt).1.trans = cd.trans
    ∧ (update_summary_pre cd wt).1.reg_trans = cd.reg_trans := by
  unfold update_summary_pre
  by_cases h : wt.rows.length = 0 <;> simp [h]

theorem update_summary_pre_summary (cd : CapData) (wt : Table) :
    (update_summary_pre cd wt).1.summary
      = cd.summary ++ (if wt.rows.length = 0
          then [⟨cd.df.rows.length, 0, "no filters"⟩] else [])
    ∧ (update_summary_pre cd wt).1.summary_ix
      = cd.summary_ix ++ (if wt.rows.length = 0
          then [(cd.name, "count")] else [])
    ∧ (update_summary_pre cd wt).2
      = (if wt.rows.length = 0 then cd.df.rows.length else wt.rows.length) := by
  unfold update_summary_pre
  by_cases h : wt.rows.length = 0 <;> simp [h]

theorem update_summary_post_eq (cd2 : CapData) (p : Nat) (a : IrrArgs)
    (t : Table) (h : cd2.df_flt = some t) :
    (update_summary_post cd2 p a).summary
      = cd2.summary
          ++ [⟨t.rows.length, (p : Int) - (t.rows.length : Int), argString a⟩]
    ∧ (update_summary_post cd2 p a).summary_ix
      = cd2.summary_ix ++ [(cd2.name, "filter_irr")]
    ∧ (update_summary_post cd2 p a).df_flt = cd2.df_flt
    ∧ (update_summary_post cd2 p a).name = cd2.name
    ∧ (update_summary_post cd2 p a).df = cd2.df
    ∧ (update_summary_post cd2 p a).trans = cd2.trans
    ∧ (update_summary_post cd2 p a).reg_trans = cd2.reg_trans := by
  unfold update_summary_post
  rw [h]
  exact ⟨rfl, rfl, rfl, rfl, rfl, rfl, rfl⟩

theorem filter_irr_body_ok (cd1 : CapData) (wt : Table) (a : IrrArgs)
    (cd2 : CapData) (h : filter_irr_body cd1 wt a = Except.ok cd2) :
    cd2.name = cd1.name ∧ cd2.df = cd1.df ∧ cd2.summary = cd1.summary
    ∧ cd2.summary_ix = cd1.summary_ix ∧ cd2.trans = cd1.trans
    ∧ cd2.reg_trans = cd1.reg_trans
    ∧ (cd2.df_flt = cd1.df_flt
       ∨ ∃ c, cd2.df_flt = some (flt_irr wt c a.low a.high a.ref_val)) := by
  unfold filter_irr_body at h
  split at h
  · cases h
    by_cases hip : a.inplace = true
    · rw [if_pos hip]
      exact ⟨rfl, rfl, rfl, rfl, rfl, rfl, Or.inr ⟨_, rfl⟩⟩
    · rw [if_neg hip]
      exact ⟨rfl, rfl, rfl, rfl, rfl, rfl, Or.inl rfl⟩
  · split at h
    · cases h
    · split at h
      · cases h
      · split at h
        · cases h
          exact ⟨rfl, rfl, rfl, rfl, rfl, rfl, Or.inl rfl⟩
        · split at h
          · cases h
            by_cases hip : a.inplace = true
            · rw [if_pos hip]
              exact ⟨rfl, rfl, rfl, rfl, rfl, rfl, Or.inr ⟨_, rfl⟩⟩
            · rw [if_neg hip]
              exact ⟨rfl, rfl, rfl, rfl, rfl, rfl, Or.inl rfl⟩
          · cases h

theorem filter_irr_call_ok (cd : CapData) (a : IrrArgs) (cd' : CapData)
    (h : filter_irr_call cd a = Except.ok cd') :
    cd'.name = cd.name ∧ cd'.df = cd.df ∧ cd'.trans = cd.trans
    ∧ cd'.reg_trans = cd.reg_trans ∧ ∃ wt', cd'.df_flt = some wt' := by
  unfold filter_irr_call at h
  split at h
  · cases h
  · rename_i wt heq
    split at h
    · cases h
    · rename_i cd2 hb
      cases h
      obtain ⟨bn, bdf, _bs, _bsx, btr, brt, bflt⟩ :=
        filter_irr_body_ok _ wt a cd2 hb
      obtain ⟨pn, pdf, pflt, ptr, prt⟩ := update_summary_pre_fields cd wt
      have hsome : ∃ t, cd2.df_flt = some t := by
        rcases bflt with hfe | ⟨c, hfe⟩
        · exact ⟨wt, by rw [hfe, pflt, heq]⟩
        · exact ⟨_, hfe⟩
      obtain ⟨t, ht⟩ := hsome
      obtain ⟨_, _, post_flt, post_name, post_df, post_tr, post_rt⟩ :=
        update_summary_post_eq cd2 (update_summary_pre cd wt).2 a t ht
      exact ⟨post_name.trans (bn.trans pn), post_df.trans (bdf.trans pdf),
        post_tr.trans (btr.trans ptr), post_rt.trans (brt.trans prt),
        ⟨t, post_flt.trans ht⟩⟩

theorem run_filters_ok (calls : List IrrArgs) : ∀ (cd s1 : CapData),
    run_filters cd calls = Except.ok s1 →
    s1.name = cd.name ∧ s1.df = cd.df ∧ s1.trans = cd.trans
    ∧ s1.reg_trans = cd.reg_trans := by
  induction calls with
  | nil =>
    intro cd s1 h
    unfold run_filters at h
    cases h
    exact ⟨rfl, rfl, rfl, rfl⟩
  | cons a rest ih =>
    intro cd s1 h
    unfold run_filters at h
    split at h
    · cases h
    · rename_i cd' hc
      obtain ⟨e1, e2, e3, e4, _⟩ := filter_irr_call_ok cd a cd' hc
      obtain ⟨f1, f2, f3, f4⟩ := ih cd' s1 h
      exact ⟨f1.trans e1, f2.trans e2, f3.trans e3, f4.trans e4⟩


theorem filter_irr_call_eq (cd : CapData) (wt : Table) (h : cd.df_flt = some wt)
    (a : IrrArgs) :
    filter_irr_call cd a
      = match filter_irr_body (update_summary_pre cd wt).1 wt a with
        | .error e => .error e
        | .ok cd2 => .ok (update_summary_post cd2 (update_summary_pre cd wt).2 a) := by
  unfold filter_irr_call
  rw [h]

/-- Claim C1, amended: every `update_summary`-wrapped `filter_irr` call that
returns appends exactly one audit entry recording the rows remaining, the
rows removed (`pts_before - pts_after`) and the call's arguments — except
that when the working table has zero rows at call time an additional
synthetic `(name, 'count')` / `'no filters'` entry is appended first and the
before-count is taken from the raw table.  No synthetic entry is appended
when filtering from a pristine state whose working table is nonempty. -/
theorem update_summary_appends (cd : CapData) (a : IrrArgs) (wt : Table)
    (h : cd.df_flt = some wt) (cd' : CapData)
    (hok : filter_irr_call cd a = Except.ok cd') :
    ∃ wt', cd'.df_flt = some wt'
    ∧ cd'.summary = cd.summary
        ++ (if wt.rows.length = 0
            then [⟨cd.df.rows.length, 0, "no filters"⟩] else [])
        ++ [⟨wt'.rows.length,
             (((if wt.rows.length = 0 then cd.df.rows.length
                else wt.rows.length) : Nat) : Int) - (wt'.rows.length : Int),
             argString a⟩]
    ∧ cd'.summary_ix = cd.summary_ix
        ++ (if wt.rows.length = 0 then [(cd.name, "count")] else [])
        ++ [(cd.name, "filter_irr")] := by
  rw [filter_irr_call_eq cd wt h] at hok
  cases hb : filter_irr_body (update_summary_pre cd wt).1 wt a with
  | error e => rw [hb] at hok; cases hok
  | ok cd2 =>
    rw [hb] at hok
    cases hok
    obtain ⟨bn, bdf, bs, bsx, _, _, bflt⟩ := filter_irr_body_ok _ wt a cd2 hb
    obtain ⟨pn, pdf, pflt, _, _⟩ := update_summary_pre_fields cd wt
    obtain ⟨ps, psx, pv⟩ := update_summary_pre_summary cd wt
    have hsome : ∃ t, cd2.df_flt = some t := by
      rcases bflt with hfe | ⟨c, hfe⟩
      · exact ⟨wt, by rw [hfe, pflt, h]⟩
      · exact ⟨_, hfe⟩
    obtain ⟨t, ht⟩ := hsome
    obtain ⟨qs, qsx, qflt, qn, _, _, _⟩ :=
      update_summary_post_eq cd2 (update_summary_pre cd wt).2 a t ht
    refine ⟨t, qflt.trans ht, ?_, ?_⟩
    · rw [qs, bs, ps, pv]
    · rw [qsx, bsx, psx, bn, pn]

/-- Claim C1, counterexample: from a pristine state (working table equal to
the nonempty raw table, empty audit trail) a `filter_irr` call appends a
single audit entry — no synthetic `'initial'` entry is produced, because the
decorator only adds it when the working table has zero rows. -/
theorem pristine_filter_appends_single_entry :
    (load_state "meas" ⟨["poa1"], [⟨0, [900]⟩]⟩ [("irr-poa-", ["poa1"])]
        [("poa", "irr-poa-")]).df_flt
      = some (load_state "meas" ⟨["poa1"], [⟨0, [900]⟩]⟩ [("irr-poa-", ["poa1"])]
        [("poa", "irr-poa-")]).df
    ∧ (load_state "meas" ⟨["poa1"], [⟨0, [900]⟩]⟩ [("irr-poa-", ["poa1"])]
        [("poa", "irr-poa-")]).summary = []
    ∧ (filter_irr_call
        (load_state "meas" ⟨["poa1"], [⟨0, [900]⟩]⟩ [("irr-poa-", ["poa1"])]
          [("poa", "irr-poa-")])
        ⟨8/10, 12/10, some 1000, none, true⟩).map
        (fun cd' => cd'.summary.length) = Except.ok 1
    ∧ ¬ ((filter_irr_call
        (load_state "meas" ⟨["poa1"], [⟨0, [900]⟩]⟩ [("irr-poa-", ["poa1"])]
          [("poa", "irr-poa-")])
        ⟨8/10, 12/10, some 1000, none, true⟩).map
        (fun cd' => cd'.summary.length) = Except.ok 2) :=
  ⟨rfl, rfl, rfl, fun hc => absurd (Except.ok.inj hc) (by decide)⟩

/-- Witness for `update_summary_appends` at a concrete pristine state. -/
theorem update_summary_appends_witness :
    ∃ wt', ((filter_irr_call
        (load_state "meas" ⟨["poa1"], [⟨0, [900]⟩]⟩ [("irr-poa-", ["poa1"])]
          [("poa", "irr-poa-")])
        ⟨8/10, 12/10, some 1000, none, true⟩).toOption.getD
          (capdata_init "x")).df_flt = some wt'
    ∧ ((filter_irr_call
        (load_state "meas" ⟨["poa1"], [⟨0, [900]⟩]⟩ [("irr-poa-", ["poa1"])]
          [("poa", "irr-poa-")])
        ⟨8/10, 12/10, some 1000, none, true⟩).toOption.getD
          (capdata_init "x")).summary
      = (load_state "meas" ⟨["poa1"], [⟨0, [900]⟩]⟩ [("irr-poa-", ["poa1"])]
          [("poa", "irr-poa-")]).summary
        ++ (if (⟨["poa1"], [⟨0, [900]⟩]⟩ : Table).rows.length = 0
            then [⟨(⟨["poa1"], [⟨0, [900]⟩]⟩ : Table).rows.length, 0, "no filters"⟩] else [])
        ++ [⟨wt'.rows.length,
             (((if (⟨["poa1"], [⟨0, [900]⟩]⟩ : Table).rows.length = 0
                then (⟨["poa1"], [⟨0, [900]⟩]⟩ : Table).rows.length
                else (⟨["poa1"], [⟨0, [900]⟩]⟩ : Table).rows.length) : Nat) : Int)
               - (wt'.rows.length : Int),
             argString ⟨8/10, 12/10, some 1000, none, true⟩⟩]
    ∧ ((filter_irr_call
        (load_state "meas" ⟨["poa1"], [⟨0, [900]⟩]⟩ [("irr-poa-", ["poa1"])]
          [("poa", "irr-poa-")])
        ⟨8/10, 12/10, some 1000, none, true⟩).toOption.getD
          (capdata_init "x")).summary_ix
      = (load_state "meas" ⟨["poa1"], [⟨0, [900]⟩]⟩ [("irr-poa-", ["poa1"])]
          [("poa", "irr-poa-")]).summary_ix
        ++ (if (⟨["poa1"], [⟨0, [900]⟩]⟩ : Table).rows.length = 0
            then [((load_state "meas" ⟨["poa1"], [⟨0, [900]⟩]⟩
              [("irr-poa-", ["poa1"])] [("poa", "irr-poa-")]).name, "count")] else [])
        ++ [((load_state "meas" ⟨["poa1"], [⟨0, [900]⟩]⟩ [("irr-poa-", ["poa1"])]
              [("poa", "irr-poa-")]).name, "filter_irr")] :=
  update_summary_appends _ ⟨8/10, 12/10, some 1000, none, true⟩ _ rfl _ rfl


/-- Claim C2, amended: on a working table with a nonempty row set, filtering
irradiance with `low=0.8, high=1.2, ref_val=1000` keeps exactly the rows
whose irradiance value `v` satisfies `800 <= v <= 1200` (the bounds are
scaled by `ref_val`), and the appended audit entry records a removed count
equal to the pre-filter row count minus the post-filter row count.  (When
the working table is empty the decorator instead uses the raw table's row
count as the before-count — see the counterexample.) -/
theorem filter_irr_band (cd : CapData) (wt : Table) (c : String)
    (h : cd.df_flt = some wt) (hne : wt.rows.length ≠ 0) (_hc : c ∈ wt.cols) :
    ∃ cd', filter_irr_call cd ⟨8/10, 12/10, some 1000, some c, true⟩
        = Except.ok cd'
    ∧ cd'.df_flt = some ⟨wt.cols, wt.rows.filter (fun r =>
        decide ((800 : Rat) ≤ cellVal wt.cols r c)
          && decide (cellVal wt.cols r c ≤ (1200 : Rat)))⟩
    ∧ cd'.summary = cd.summary
        ++ [⟨(wt.rows.filter (fun r =>
              decide ((800 : Rat) ≤ cellVal wt.cols r c)
                && decide (cellVal wt.cols r c ≤ (1200 : Rat)))).length,
             (wt.rows.length : Int)
               - ((wt.rows.filter (fun r =>
                   decide ((800 : Rat) ≤ cellVal wt.cols r c)
                     && decide (cellVal wt.cols r c ≤ (1200 : Rat)))).length : Int),
             argString ⟨8/10, 12/10, some 1000, some c, true⟩⟩] := by
  have hflt : flt_irr wt c (8/10) (12/10) (some 1000)
      = ⟨wt.cols, wt.rows.filter (fun r =>
          decide ((800 : Rat) ≤ cellVal wt.cols r c)
            && decide (cellVal wt.cols r c ≤ (1200 : Rat)))⟩ := by
    unfold flt_irr
    norm_num
  have hpre : update_summary_pre cd wt = (cd, wt.rows.length) := by
    unfold update_summary_pre
    rw [if_neg hne]
  have hbody : filter_irr_body (update_summary_pre cd wt).1 wt
      ⟨8/10, 12/10, some 1000, some c, true⟩
      = Except.ok { (update_summary_pre cd wt).1 with
          df_flt := some (flt_irr wt c (8/10) (12/10) (some 1000)) } := by
    unfold filter_irr_body
    rfl
  rw [filter_irr_call_eq cd wt h, hbody, hpre]
  refine ⟨_, rfl, ?_, ?_⟩
  · show some (flt_irr wt c (8/10) (12/10) (some 1000)) = _
    rw [hflt]
  · show cd.summary ++ [(⟨(flt_irr wt c (8/10) (12/10) (some 1000)).rows.length,
        (wt.rows.length : Int)
          - ((flt_irr wt c (8/10) (12/10) (some 1000)).rows.length : Int),
        argString ⟨8/10, 12/10, some 1000, some c, true⟩⟩ : SummaryEntry)] = _
    rw [hflt]


/-- A pristine post-load state with three rows of irradiance data, used by
the concrete instances below. -/
def cdP3 : CapData :=
  load_state "meas" ⟨["poa1"], [⟨0, [900]⟩, ⟨1, [100]⟩, ⟨2, [2000]⟩]⟩
    [("irr-poa-", ["poa1"])] [("poa", "irr-poa-")]

/-- An absolute-band filter call that removes every row of `cdP3`. -/
def killArgs : IrrArgs := ⟨5000, 6000, none, none, true⟩

/-- The `low=0.8, high=1.2, ref_val=1000` filter call. -/
def bandArgs : IrrArgs := ⟨8/10, 12/10, some 1000, none, true⟩

/-- Claim C2, counterexample: after a filter that empties the working table,
a further `filter_irr(0.8, 1.2, ref_val=1000)` appends an audit entry whose
removed count is the raw table's row count (3), not the pre-filter row count
minus the post-filter row count (0 - 0 = 0). -/
theorem empty_working_table_removed_count :
    (run_filters cdP3 [killArgs]).map
        (fun s => s.df_flt.map (fun t => t.rows.length)) = Except.ok (some 0)
    ∧ (run_filters cdP3 [killArgs, bandArgs]).map
        (fun s => s.df_flt.map (fun t => t.rows.length)) = Except.ok (some 0)
    ∧ (run_filters cdP3 [killArgs, bandArgs]).map
        (fun s => (s.summary.getLast?).map (fun e => e.pts_removed))
      = Except.ok (some 3)
    ∧ (3 : Int) ≠ (0 : Int) - (0 : Int) :=
  ⟨rfl, rfl, rfl, by decide⟩

/-- Witness for `filter_irr_band` at the concrete state `cdP3`:
rows `900` and `2000`; the filter keeps `900` only. -/
theorem filter_irr_band_witness :
    ∃ cd', filter_irr_call cdP3 ⟨8/10, 12/10, some 1000, some "poa1", true⟩
        = Except.ok cd'
    ∧ cd'.df_flt = some ⟨(⟨["poa1"], [⟨0, [900]⟩, ⟨1, [100]⟩, ⟨2, [2000]⟩]⟩ : Table).cols,
        (⟨["poa1"], [⟨0, [900]⟩, ⟨1, [100]⟩, ⟨2, [2000]⟩]⟩ : Table).rows.filter (fun r =>
          decide ((800 : Rat) ≤ cellVal (⟨["poa1"], [⟨0, [900]⟩, ⟨1, [100]⟩, ⟨2, [2000]⟩]⟩ : Table).cols r "poa1")
            && decide (cellVal (⟨["poa1"], [⟨0, [900]⟩, ⟨1, [100]⟩, ⟨2, [2000]⟩]⟩ : Table).cols r "poa1" ≤ (1200 : Rat)))⟩
    ∧ cd'.summary = cdP3.summary
        ++ [⟨((⟨["poa1"], [⟨0, [900]⟩, ⟨1, [100]⟩, ⟨2, [2000]⟩]⟩ : Table).rows.filter (fun r =>
              decide ((800 : Rat) ≤ cellVal (⟨["poa1"], [⟨0, [900]⟩, ⟨1, [100]⟩, ⟨2, [2000]⟩]⟩ : Table).cols r "poa1")
                && decide (cellVal (⟨["poa1"], [⟨0, [900]⟩, ⟨1, [100]⟩, ⟨2, [2000]⟩]⟩ : Table).cols r "poa1" ≤ (1200 : Rat)))).length,
             ((⟨["poa1"], [⟨0, [900]⟩, ⟨1, [100]⟩, ⟨2, [2000]⟩]⟩ : Table).rows.length : Int)
               - (((⟨["poa1"], [⟨0, [900]⟩, ⟨1, [100]⟩, ⟨2, [2000]⟩]⟩ : Table).rows.filter (fun r =>
                   decide ((800 : Rat) ≤ cellVal (⟨["poa1"], [⟨0, [900]⟩, ⟨1, [100]⟩, ⟨2, [2000]⟩]⟩ : Table).cols r "poa1")
                     && decide (cellVal (⟨["poa1"], [⟨0, [900]⟩, ⟨1, [100]⟩, ⟨2, [2000]⟩]⟩ : Table).cols r "poa1" ≤ (1200 : Rat)))).length : Int),
             argString ⟨8/10, 12/10, some 1000, some "poa1", true⟩⟩] :=
  filter_irr_band cdP3 ⟨["poa1"], [⟨0, [900]⟩, ⟨1, [100]⟩, ⟨2, [2000]⟩]⟩ "poa1"
    rfl (by decide) (by decide)

/-- Claim C6: from a pristine state (working table a copy of the raw table,
empty audit trail), running a sequence of filter calls and then resetting the
working table and re-running the same sequence with the same arguments
reproduces exactly the same final state — the same audit trail (entries, row
counts, argument strings) and the same final row count. -/
theorem reset_rerun_reproduces (cd : CapData) (calls : List IrrArgs)
    (s1 : CapData) (hp1 : cd.df_flt = some cd.df) (hp2 : cd.summary = [])
    (hp3 : cd.summary_ix = [])
    (hrun : run_filters cd calls = Except.ok s1) :
    run_filters (reset_flt s1) calls = Except.ok s1 := by
  obtain ⟨e1, e2, e3, e4⟩ := run_filters_ok calls cd s1 hrun
  have hreset : reset_flt s1 = cd := by
    apply CapData.ext
    · exact e1
    · exact e2
    · show some s1.df = cd.df_flt
      rw [e2, hp1]
    · exact e3
    · exact e4
    · exact hp3.symm
    · exact hp2.symm
  rw [hreset]
  exact hrun

/-- The state after running the band filter once from `cdP3`. -/
def reRunS1 : CapData :=
  (run_filters cdP3 [bandArgs]).toOption.getD (capdata_init "x")

/-- Witness for `reset_rerun_reproduces` with one concrete filter call. -/
theorem reset_rerun_reproduces_witness :
    run_filters (reset_flt reRunS1) [bandArgs] = Except.ok reRunS1 :=
  reset_rerun_reproduces cdP3 [bandArgs] reRunS1 rfl rfl rfl rfl

/-- Claim C7: after `load_data` the working table is a (value-equal but
separate) copy of the raw table; every in-place filter call leaves the raw
table `df` unchanged (the filter writes only `df_flt`, so mutating one table
never mutates the other), preserves the full column set of the raw table on
`df_flt`, and only narrows the row set (the new rows are a sublist of the
previous working rows, so the index is a subset of the pre-filter index). -/
theorem filter_preserves_raw_table (n : String) (df0 : Table)
    (tr : List (String × List String)) (rt : List (String × String))
    (cd : CapData) (a : IrrArgs) (wt : Table) (cd' : CapData)
    (h : cd.df_flt = some wt) (hcols : wt.cols = cd.df.cols)
    (hok : filter_irr_call cd a = Except.ok cd') :
    ((load_state n df0 tr rt).df = df0
      ∧ (load_state n df0 tr rt).df_flt = some df0)
    ∧ cd'.df = cd.df
    ∧ (∃ wt', cd'.df_flt = some wt' ∧ wt'.cols = cd'.df.cols
        ∧ List.Sublist wt'.rows wt.rows) := by
  rw [filter_irr_call_eq cd wt h] at hok
  cases hb : filter_irr_body (update_summary_pre cd wt).1 wt a with
  | error e => rw [hb] at hok; cases hok
  | ok cd2 =>
    rw [hb] at hok
    cases hok
    obtain ⟨_, bdf, _, _, _, _, bflt⟩ := filter_irr_body_ok _ wt a cd2 hb
    obtain ⟨_, pdf, pflt, _, _⟩ := update_summary_pre_fields cd wt
    have hdf2 : cd2.df = cd.df := bdf.trans pdf
    rcases bflt with hfe | ⟨c, hfe⟩
    · have ht : cd2.df_flt = some wt := by rw [hfe, pflt, h]
      obtain ⟨_, _, qflt, _, qdf, _, _⟩ :=
        update_summary_post_eq cd2 (update_summary_pre cd wt).2 a wt ht
      refine ⟨⟨rfl, rfl⟩, qdf.trans hdf2, wt, qflt.trans ht, ?_, List.Sublist.refl _⟩
      rw [qdf.trans hdf2]
      exact hcols
    · have ht : cd2.df_flt = some (flt_irr wt c a.low a.high a.ref_val) := hfe
      obtain ⟨_, _, qflt, _, qdf, _, _⟩ :=
        update_summary_post_eq cd2 (update_summary_pre cd wt).2 a _ ht
      refine ⟨⟨rfl, rfl⟩, qdf.trans hdf2,
        flt_irr wt c a.low a.high a.ref_val, qflt.trans ht, ?_, ?_⟩
      · rw [qdf.trans hdf2]
        exact hcols
      · exact List.filter_sublist _

/-- Witness for `filter_preserves_raw_table` at the concrete state `cdP3`. -/
theorem filter_preserves_raw_table_witness :
    ((load_state "meas" ⟨["poa1"], [⟨0, [900]⟩, ⟨1, [100]⟩, ⟨2, [2000]⟩]⟩
        [("irr-poa-", ["poa1"])] [("poa", "irr-poa-")]).df
        = ⟨["poa1"], [⟨0, [900]⟩, ⟨1, [100]⟩, ⟨2, [2000]⟩]⟩
      ∧ (load_state "meas" ⟨["poa1"], [⟨0, [900]⟩, ⟨1, [100]⟩, ⟨2, [2000]⟩]⟩
        [("irr-poa-", ["poa1"])] [("poa", "irr-poa-")]).df_flt
        = some ⟨["poa1"], [⟨0, [900]⟩, ⟨1, [100]⟩, ⟨2, [2000]⟩]⟩)
    ∧ ((run_filters cdP3 [bandArgs]).toOption.getD (capdata_init "x")).df = cdP3.df
    ∧ (∃ wt', ((run_filters cdP3 [bandArgs]).toOption.getD (capdata_init "x")).df_flt = some wt'
        ∧ wt'.cols = ((run_filters cdP3 [bandArgs]).toOption.getD (capdata_init "x")).df.cols
        ∧ List.Sublist wt'.rows (⟨["poa1"], [⟨0, [900]⟩, ⟨1, [100]⟩, ⟨2, [2000]⟩]⟩ : Table).rows) :=
  filter_preserves_raw_table "meas"
    ⟨["poa1"], [⟨0, [900]⟩, ⟨1, [100]⟩, ⟨2, [2000]⟩]⟩
    [("irr-poa-", ["poa1"])] [("poa", "irr-poa-")]
    cdP3 bandArgs ⟨["poa1"], [⟨0, [900]⟩, ⟨1, [100]⟩, ⟨2, [2000]⟩]⟩
    ((run_filters cdP3 [bandArgs]).toOption.getD (capdata_init "x"))
    rfl rfl rfl

/-- Claim C10: `CapData.copy` always raises `TypeError` — it calls
`CapData()` without the required `name` argument of `__init__` — and never
returns a copy. -/
theorem copy_always_raises (cd : CapData) :
    CapData.copy cd = Except.error PyErr.typeError
    ∧ ∀ cd', CapData.copy cd ≠ Except.ok cd' := by
  constructor
  · rfl
  · intro cd' hc
    rw [show CapData.copy cd = Except.error PyErr.typeError from rfl] at hc
    cases hc


/-- Witness for `set_trans_partitions` on a concrete three-column frame. -/
theorem set_trans_partitions_witness :
    (([("--", ["xyz"]), ("irr-poa-pyran", ["poa pyranometer"]),
        ("temp-amb-", ["amb temp"])] : List (String × List String)).map
        Prod.fst).Nodup
    ∧ List.Perm (([("--", ["xyz"]), ("irr-poa-pyran", ["poa pyranometer"]),
        ("temp-amb-", ["amb temp"])] : List (String × List String)).map
          Prod.snd).flatten
        (([⟨"poa pyranometer", .nums [500]⟩, ⟨"amb temp", .nums [20]⟩,
          ⟨"xyz", .nums [1]⟩] : List SCol).map SCol.name)
    ∧ (∀ c ∈ ([⟨"poa pyranometer", .nums [500]⟩, ⟨"amb temp", .nums [20]⟩,
          ⟨"xyz", .nums [1]⟩] : List SCol), ∀ k,
        col_group_key c false = Except.ok k →
        ∃ lst, (k, lst) ∈ ([("--", ["xyz"]), ("irr-poa-pyran", ["poa pyranometer"]),
          ("temp-amb-", ["amb temp"])] : List (String × List String))
          ∧ c.name ∈ lst)
    ∧ (∀ p ∈ ([("--", ["xyz"]), ("irr-poa-pyran", ["poa pyranometer"]),
          ("temp-amb-", ["amb temp"])] : List (String × List String)),
        ∀ n ∈ p.2, ∃ c ∈ ([⟨"poa pyranometer", .nums [500]⟩,
          ⟨"amb temp", .nums [20]⟩, ⟨"xyz", .nums [1]⟩] : List SCol),
          c.name = n ∧ col_group_key c false = Except.ok p.1) :=
  set_trans_partitions
    [⟨"poa pyranometer", .nums [500]⟩, ⟨"amb temp", .nums [20]⟩,
      ⟨"xyz", .nums [1]⟩] false
    [("--", ["xyz"]), ("irr-poa-pyran", ["poa pyranometer"]),
      ("temp-amb-", ["amb temp"])] rfl

/-- The header-scan of `CapData.load_das`: the index column of the initial
read is scanned with `dateutil.parser.parse` (the oracle `parses`; `false`
models the parse raising `ValueError`); the first success sets
`header_end = i + 1`. -/
def header_end (indexCells : List String) (parses : String → Bool) :
    Option Nat :=
  (indexCells.findIdx? parses).map (fun i => i + 1)

/-- Outcome of the header-detection phase of `load_das`: the initial read
already produced a Timestamp index (`directRead`), or the file is re-read
with the detected number of header rows, or — for the `'AlsoEnergy'`
source — with `header='infer'` (processing then continues past the cited
region). -/
inductive DasOutcome where
  | directRead : DasOutcome
  | rereadHeaders : Nat → DasOutcome
  | rereadInfer : DasOutcome
deriving DecidableEq, Repr

/-- Models `CapData.load_das`, header-detection slice: when the first index entry is
not already a `pd.Timestamp`, the index is scanned for a parseable date; with
the default source the number of header rows is
`list(np.arange(header_end))` — and when no row parsed, `header_end` was
never assigned and Python raises `UnboundLocalError`.  The function has no
`raise` statement of its own. -/
def load_das (idx0IsTimestamp : Bool) (indexCells : List String)
    (parses : String → Bool) (source : Option String) :
    Except PyErr DasOutcome :=
  if idx0IsTimestamp then .ok .directRead
  else
    match header_end indexCells parses with
    | some n =>
      if source = some "AlsoEnergy" then .ok .rereadInfer
      else .ok (.rereadHeaders n)
    | none =>
      if source = some "AlsoEnergy" then .ok .rereadInfer
      else .error (.unboundLocal "header_end")

/-- An error counts as descriptive when it was deliberately raised with a
message (`PyErr.raised`); accidental errors such as `UnboundLocalError` are
not. -/
def isDescriptive : PyErr → Bool
  | .raised _ => true
  | _ => false

/-- Claim C8, amended: with the default source, when the initial read's
index is not a timestamp index and no index cell parses as a date,
`load_das` terminates with an `UnboundLocalError` on the never-assigned
`header_end` variable — an error, so it never silently returns an empty
table — but the error is not a descriptive one. -/
theorem load_das_no_timestamp_raises (cells : List String)
    (parses : String → Bool) (h0 : ∀ c ∈ cells, parses c = false) :
    load_das false cells parses none
      = Except.error (PyErr.unboundLocal "header_end")
    ∧ (∀ r, load_das false cells parses none ≠ Except.ok r)
    ∧ isDescriptive (PyErr.unboundLocal "header_end") = false := by
  have hidx : cells.findIdx? parses = none := by
    rw [List.findIdx?_eq_none_iff]
    intro x hx
    rw [h0 x hx]
  have hhe : header_end cells parses = none := by
    unfold header_end
    rw [hidx]
    rfl
  have hmain : load_das false cells parses none
      = Except.error (PyErr.unboundLocal "header_end") := by
    unfold load_das
    rw [hhe]
    rfl
  refine ⟨hmain, fun r hc => ?_, rfl⟩
  rw [hmain] at hc
  cases hc

/-- Claim C8, counterexample: on a file whose index column holds only
non-date strings, `load_das` (default source) fails with the accidental
`UnboundLocalError` — an error that does not describe the timestamp
problem — rather than a deliberately raised, descriptive error. -/
theorem load_das_error_not_descriptive :
    load_das false ["colA", "unit"] (fun _ => false) none
      = Except.error (PyErr.unboundLocal "header_end")
    ∧ isDescriptive (PyErr.unboundLocal "header_end") = false :=
  ⟨rfl, rfl⟩

/-- Witness for `load_das_no_timestamp_raises`. -/
theorem load_das_no_timestamp_raises_witness :
    load_das false ["colA", "unit"] (fun _ => false) none
      = Except.error (PyErr.unboundLocal "header_end")
    ∧ (∀ r, load_das false ["colA", "unit"] (fun _ => false) none
        ≠ Except.ok r)
    ∧ isDescriptive (PyErr.unboundLocal "header_end") = false :=
  load_das_no_timestamp_raises ["colA", "unit"] (fun _ => false)
    (fun _ _ => rfl)

/-- The date-index construction of `CapData.load_pvsyst`:
`pd.to_datetime(dates, format='%m/%d/%y %H:%M')` is attempted first
(`parseStrict`; `none` models the strict parse raising `ValueError`, which
happens as soon as any element fails the format); on `ValueError` the bare
`pd.to_datetime(dates)` fallback (`parseFlex`) is used.  The second
component collects the warnings emitted — the source emits none. -/
def load_pvsyst_dates (parseStrict : String → Option Nat)
    (parseFlex : String → Nat) (dates : List String) :
    List Nat × List String :=
  if dates.all (fun d => (parseStrict d).isSome) then
    (dates.map (fun d => (parseStrict d).getD 0), [])
  else
    (dates.map parseFlex, [])

/-- Claim C9, amended: the PVsyst loader attempts the month/day format
`'%m/%d/%y %H:%M'` first — when every date matches, those results are
used — and on a `ValueError` falls back to pandas' default flexible parsing
(not specifically a day/month format); no warning is emitted in either
case. -/
theorem load_pvsyst_dates_fallback (parseStrict : String → Option Nat)
    (parseFlex : String → Nat) (dates : List String) :
    (load_pvsyst_dates parseStrict parseFlex dates).2 = []
    ∧ ((∀ d ∈ dates, (parseStrict d).isSome) →
        (load_pvsyst_dates parseStrict parseFlex dates).1
          = dates.map (fun d => (parseStrict d).getD 0))
    ∧ ((∃ d ∈ dates, parseStrict d = none) →
        (load_pvsyst_dates parseStrict parseFlex dates).1
          = dates.map parseFlex) := by
  unfold load_pvsyst_dates
  by_cases h : dates.all (fun d => (parseStrict d).isSome) = true
  · rw [if_pos h]
    refine ⟨rfl, fun _ => rfl, fun hex => ?_⟩
    obtain ⟨d, hd, hn⟩ := hex
    have := List.all_eq_true.mp h d hd
    rw [hn] at this
    cases this
  · rw [if_neg h]
    refine ⟨rfl, fun hall => ?_, fun _ => rfl⟩
    exact absurd (List.all_eq_true.mpr (fun d hd => hall d hd)) h

/-- Claim C9, counterexample: on a date that fails the month/day format the
fallback parse is used and the warning list stays empty — no warning about
the fallback is emitted. -/
theorem load_pvsyst_dates_no_warning :
    (load_pvsyst_dates (fun _ => none) (fun _ => 7) ["31/12/90 00:00"]).1
      = [7]
    ∧ (load_pvsyst_dates (fun _ => none) (fun _ => 7) ["31/12/90 00:00"]).2
      = [] :=
  ⟨rfl, rfl⟩

/-- Witness for `load_pvsyst_dates_fallback` at a concrete failing date. -/
theorem load_pvsyst_dates_fallback_witness :
    (load_pvsyst_dates (fun _ => none) (fun _ => 7) ["31/12/90 00:00"]).2 = []
    ∧ (load_pvsyst_dates (fun _ => none) (fun _ => 7) ["31/12/90 00:00"]).1
      = ["31/12/90 00:00"].map (fun _ => 7) :=
  ⟨(load_pvsyst_dates_fallback (fun _ => none) (fun _ => 7)
      ["31/12/90 00:00"]).1,
   (load_pvsyst_dates_fallback (fun _ => none) (fun _ => 7)
      ["31/12/90 00:00"]).2.2
     ⟨"31/12/90 00:00", List.mem_cons_self _ _, rfl⟩⟩


/-- Witness for `out_of_bounds_still_classified`: the column `"amb temp"`
with minimum `-60`, below the `temp` category's lower bound `-49`. -/
theorem out_of_bounds_still_classified_witness :
    series_type ⟨"amb temp", .nums [-60, 20]⟩ type_defs true true
      = Except.ok ("temp",
          (if false then ([] : List BoundWarning)
           else [BoundWarning.below (colMin ⟨"amb temp", .nums [-60, 20]⟩)
             "amb temp" (Bnd.num (-49)) "temp"]) ++
          (if true then ([] : List BoundWarning)
           else [BoundWarning.above (colMax ⟨"amb temp", .nums [-60, 20]⟩)
             "amb temp" (Bnd.num 127) "temp"]))
    ∧ ((if false then ([] : List BoundWarning)
        else [BoundWarning.below (colMin ⟨"amb temp", .nums [-60, 20]⟩)
          "amb temp" (Bnd.num (-49)) "temp"]) ++
       (if true then ([] : List BoundWarning)
        else [BoundWarning.above (colMax ⟨"amb temp", .nums [-60, 20]⟩)
          "amb temp" (Bnd.num 127) "temp"])) ≠ []
    ∧ (false = false → BoundWarning.below (colMin ⟨"amb temp", .nums [-60, 20]⟩)
          "amb temp" (Bnd.num (-49)) "temp" ∈
        (if false then ([] : List BoundWarning)
         else [BoundWarning.below (colMin ⟨"amb temp", .nums [-60, 20]⟩)
           "amb temp" (Bnd.num (-49)) "temp"]) ++
        (if true then ([] : List BoundWarning)
         else [BoundWarning.above (colMax ⟨"amb temp", .nums [-60, 20]⟩)
           "amb temp" (Bnd.num 127) "temp"]))
    ∧ (true = false → BoundWarning.above (colMax ⟨"amb temp", .nums [-60, 20]⟩)
          "amb temp" (Bnd.num 127) "temp" ∈
        (if false then ([] : List BoundWarning)
         else [BoundWarning.below (colMin ⟨"amb temp", .nums [-60, 20]⟩)
           "amb temp" (Bnd.num (-49)) "temp"]) ++
        (if true then ([] : List BoundWarning)
         else [BoundWarning.above (colMax ⟨"amb temp", .nums [-60, 20]⟩)
           "amb temp" (Bnd.num 127) "temp"]))
    ∧ series_type ⟨"amb temp", .nums [-60, 20]⟩ type_defs true false
        = Except.ok ("temp", []) :=
  out_of_bounds_still_classified ⟨"amb temp", .nums [-60, 20]⟩
    ⟨"temp", ["temperature", "temp", "degrees", "deg", "ambient",
      "amb", "cell temperature", "TArray"], some (.num (-49), .num 127)⟩
    (by decide) (by decide) (by decide) (.num (-49)) (.num 127) rfl
    false true rfl rfl (Or.inl rfl)

end Captest
